import Mathlib

/-!
Shallow embedding of the credit-renewal LangGraph workflow
(`src/agent/graph.py` of h2oai/h2ogpte_langgraph_demo).

The workflow state is a Python `TypedDict` threaded through the graph; we
model it as a record of optional fields (`none` = key absent from the dict).
Human decisions returned by `interrupt` and the acceptance flags may be any
Python value, modelled by `PyVal` with Python truthiness.

External collaborators (the h2oGPTE retrieval/generation service and the
human reviewer) are modelled by an `Oracle` supplying, per superstep, the
outcome of each possible collaborator call and each possible gate decision.
The LangGraph engine is modelled as a Pregel-style superstep relation: all
scheduled nodes of a superstep execute (the three retrieval branches run
concurrently and independently), their partial updates are merged into the
shared state, and the conditional edges are then evaluated on the merged
state to schedule the next superstep.
-/

/-- A Python value as it can appear in a workflow-state field: `None`, a
boolean, an integer or a string.  Acceptance flags receive the raw value
supplied to `interrupt`'s resume, so they range over `PyVal`. -/
inductive PyVal where
  | pynone : PyVal
  | bool : Bool → PyVal
  | int : Int → PyVal
  | str : String → PyVal
deriving DecidableEq, Repr

/-- Python truthiness of a `PyVal` (`bool(x)`). -/
def PyVal.truthy : PyVal → Bool
  | .pynone => false
  | .bool b => b
  | .int n => n != 0
  | .str s => s != ""

/-- The workflow state dict (`OverallState` in `graph.py`).  A field holding
`none` models a key that is absent from the dict.  The same type serves as
the partial update a node returns: a field holding `none` is a key the
returned dict does not write. -/
structure StateDict where
  borrower_id : Option String := none
  sector : Option String := none
  policy_query : Option String := none
  entity_query : Option String := none
  market_query : Option String := none
  policy_pack : Option String := none
  entity_pack : Option String := none
  market_pack : Option String := none
  credit_memo : Option String := none
  approved_memo : Option String := none
  rerun_policy : Option PyVal := none
  rerun_entity : Option PyVal := none
  rerun_market : Option PyVal := none
  accept_policy : Option PyVal := none
  accept_entity : Option PyVal := none
  accept_market : Option PyVal := none
  accept_synthesis : Option PyVal := none
deriving DecidableEq, Repr

/-- Merge a partial update `u` returned by a node into state `st`: every key
present in `u` overwrites the corresponding key of `st` (LangGraph's
last-value channel update). -/
def applyUpdate (st u : StateDict) : StateDict where
  borrower_id := u.borrower_id <|> st.borrower_id
  sector := u.sector <|> st.sector
  policy_query := u.policy_query <|> st.policy_query
  entity_query := u.entity_query <|> st.entity_query
  market_query := u.market_query <|> st.market_query
  policy_pack := u.policy_pack <|> st.policy_pack
  entity_pack := u.entity_pack <|> st.entity_pack
  market_pack := u.market_pack <|> st.market_pack
  credit_memo := u.credit_memo <|> st.credit_memo
  approved_memo := u.approved_memo <|> st.approved_memo
  rerun_policy := u.rerun_policy <|> st.rerun_policy
  rerun_entity := u.rerun_entity <|> st.rerun_entity
  rerun_market := u.rerun_market <|> st.rerun_market
  accept_policy := u.accept_policy <|> st.accept_policy
  accept_entity := u.accept_entity <|> st.accept_entity
  accept_market := u.accept_market <|> st.accept_market
  accept_synthesis := u.accept_synthesis <|> st.accept_synthesis

/-- Process environment: the three collection-id variables read by
`os.getenv` in the retrieval nodes (`none` = variable unset). -/
structure Env where
  policy_collection_id : Option String := none
  entity_collection_id : Option String := none
  market_collection_id : Option String := none
deriving DecidableEq, Repr

/-- One superstep's worth of external-collaborator behaviour: the outcome
each retrieval/generation call would have if attempted, and the decision
each human gate would receive if it suspends in this superstep. -/
structure Oracle where
  policyRetrieval : Except String String := .ok "P"
  entityRetrieval : Except String String := .ok "E"
  marketRetrieval : Except String String := .ok "M"
  generation : Except String String := .ok "MEMO"
  policyDecision : PyVal := .bool true
  entityDecision : PyVal := .bool true
  marketDecision : PyVal := .bool true
  finalDecision : PyVal := .bool true
deriving Repr

/-- The three topical retrieval domains. -/
inductive Domain where
  | policy : Domain
  | entity : Domain
  | market : Domain
deriving DecidableEq, Repr

/-- An observable call to an external collaborator. -/
inductive Event where
  | retrievalCall : Domain → String → String → Event
  | generationCall : String → Event
deriving DecidableEq, Repr

/-- A Python exception escaping a node (aborts the run). -/
inductive PyErr where
  | valueError : String → PyErr
  | keyError : String → PyErr
deriving DecidableEq, Repr

/-- The error message raised by `rag_policy` when `POLICY_COLLECTION_ID` is
unset or empty. -/
def policyConfigMsg : String :=
  "POLICY_COLLECTION_ID environment variable not set. Please check the README for setup instructions and ensure your .env file is configured correctly."

/-- The error message raised by `rag_entity` when `ENTITY_COLLECTION_ID` is
unset or empty. -/
def entityConfigMsg : String :=
  "ENTITY_COLLECTION_ID environment variable not set. Please check the README for setup instructions and ensure your .env file is configured correctly."

/-- The error message raised by `rag_market` when `MARKET_COLLECTION_ID` is
unset or empty. -/
def marketConfigMsg : String :=
  "MARKET_COLLECTION_ID environment variable not set. Please check the README for setup instructions and ensure your .env file is configured correctly."

/-- `ingest_renewal_alert` (graph.py lines 86-96): reads `borrower_id` and
`sector` with `dict.get` defaults, writes the three query strings into the
state dict with fixed f-string templates, and returns the whole dict. -/
def ingest_renewal_alert (st : StateDict) : StateDict :=
  let borrower_id := st.borrower_id.getD "TechManufacture Inc"
  let sector := st.sector.getD "Advanced Manufacturing"
  { st with
    policy_query := some ("Credit policy and underwriting guidelines for " ++ borrower_id ++ " in " ++ sector ++ " sector")
    entity_query := some ("Financial data, credit history, and risk profile for " ++ borrower_id)
    market_query := some ("Market conditions, sector analysis, and economic indicators for " ++ sector ++ " sector") }

/-- `rag_policy` (graph.py lines 99-118).  Raises `ValueError` when the
collection id is unset or empty, before any call.  Otherwise the `try:`
block evaluates `state['policy_query']` (a missing key raises `KeyError`,
caught by `except Exception` before any call is made) and calls the
retrieval collaborator; both the success and the failure branch return a
dict writing exactly `policy_pack` and `accept_policy`. -/
def rag_policy (env : Env) (o : Oracle) (st : StateDict) :
    Except PyErr (StateDict × List Event) :=
  match env.policy_collection_id with
  | none => .error (.valueError policyConfigMsg)
  | some cid =>
    if cid = "" then .error (.valueError policyConfigMsg)
    else
      match st.policy_query with
      | none =>
        .ok ({ policy_pack := some "Policy retrieval failed: 'policy_query'",
               accept_policy := some (.bool false) }, [])
      | some q =>
        match o.policyRetrieval with
        | .ok t =>
          .ok ({ policy_pack := some ("Policy Analysis:\n" ++ t),
                 accept_policy := some (.bool false) },
               [.retrievalCall .policy q cid])
        | .error e =>
          .ok ({ policy_pack := some ("Policy retrieval failed: " ++ e),
                 accept_policy := some (.bool false) },
               [.retrievalCall .policy q cid])

/-- `rag_entity` (graph.py lines 121-140), same shape as `rag_policy`. -/
def rag_entity (env : Env) (o : Oracle) (st : StateDict) :
    Except PyErr (StateDict × List Event) :=
  match env.entity_collection_id with
  | none => .error (.valueError entityConfigMsg)
  | some cid =>
    if cid = "" then .error (.valueError entityConfigMsg)
    else
      match st.entity_query with
      | none =>
        .ok ({ entity_pack := some "Entity retrieval failed: 'entity_query'",
               accept_entity := some (.bool false) }, [])
      | some q =>
        match o.entityRetrieval with
        | .ok t =>
          .ok ({ entity_pack := some ("Entity Analysis:\n" ++ t),
                 accept_entity := some (.bool false) },
               [.retrievalCall .entity q cid])
        | .error e =>
          .ok ({ entity_pack := some ("Entity retrieval failed: " ++ e),
                 accept_entity := some (.bool false) },
               [.retrievalCall .entity q cid])

/-- `rag_market` (graph.py lines 143-162), same shape as `rag_policy`. -/
def rag_market (env : Env) (o : Oracle) (st : StateDict) :
    Except PyErr (StateDict × List Event) :=
  match env.market_collection_id with
  | none => .error (.valueError marketConfigMsg)
  | some cid =>
    if cid = "" then .error (.valueError marketConfigMsg)
    else
      match st.market_query with
      | none =>
        .ok ({ market_pack := some "Market retrieval failed: 'market_query'",
               accept_market := some (.bool false) }, [])
      | some q =>
        match o.marketRetrieval with
        | .ok t =>
          .ok ({ market_pack := some ("Market Analysis:\n" ++ t),
                 accept_market := some (.bool false) },
               [.retrievalCall .market q cid])
        | .error e =>
          .ok ({ market_pack := some ("Market retrieval failed: " ++ e),
                 accept_market := some (.bool false) },
               [.retrievalCall .market q cid])

/-- The synthesis prompt f-string of `synthesize_recommendation`
(graph.py lines 167-187), with the three packs interpolated. -/
def synthesis_prompt (pp ep mp : String) : String :=
  "\n    Based on the following information, create a comprehensive credit renewal memo:\n\n    Policy Context:\n    "
    ++ pp
    ++ "\n\n    Entity Analysis:\n    "
    ++ ep
    ++ "\n\n    Market Analysis:\n    "
    ++ mp
    ++ "\n\n    Please provide:\n    1. Credit rating recommendation\n    2. Key covenants and conditions\n    3. Pricing recommendations\n    4. Risk factors and mitigants\n    5. Citations and supporting evidence\n\n    Format as a professional credit memo.\n    "

/-- `synthesize_recommendation` (graph.py lines 165-195).  The prompt
f-string indexes `state['policy_pack']` / `['entity_pack']` /
`['market_pack']` outside the `try:` block, so a missing pack raises
`KeyError` and aborts; otherwise the generation call's result (or its
failure message) is written into `credit_memo` and the whole state dict is
returned. -/
def synthesize_recommendation (o : Oracle) (st : StateDict) :
    Except PyErr (StateDict × List Event) :=
  match st.policy_pack, st.entity_pack, st.market_pack with
  | none, _, _ => .error (.keyError "policy_pack")
  | some _, none, _ => .error (.keyError "entity_pack")
  | some _, some _, none => .error (.keyError "market_pack")
  | some pp, some ep, some mp =>
    let prompt := synthesis_prompt pp ep mp
    match o.generation with
    | .ok t =>
      .ok ({ st with credit_memo := some t }, [.generationCall prompt])
    | .error e =>
      .ok ({ st with credit_memo := some ("Synthesis failed: " ++ e) },
           [.generationCall prompt])

/-- `hitl_policy_review` (graph.py lines 198-217): suspends on `interrupt`
and returns a dict writing exactly `accept_policy` with the raw decision
value supplied on resume. -/
def hitl_policy_review (o : Oracle) (_st : StateDict) : StateDict :=
  { accept_policy := some o.policyDecision }

/-- `hitl_entity_review` (graph.py lines 220-239). -/
def hitl_entity_review (o : Oracle) (_st : StateDict) : StateDict :=
  { accept_entity := some o.entityDecision }

/-- `hitl_market_review` (graph.py lines 242-261). -/
def hitl_market_review (o : Oracle) (_st : StateDict) : StateDict :=
  { accept_market := some o.marketDecision }

/-- `hitl_final_approval` (graph.py lines 264-283). -/
def hitl_final_approval (o : Oracle) (_st : StateDict) : StateDict :=
  { accept_synthesis := some o.finalDecision }

/-- `should_rerun_policy` (graph.py lines 286-289):
`not state.get('accept_policy', False)` under Python truthiness. -/
def should_rerun_policy (st : StateDict) : Bool :=
  ! (st.accept_policy.getD (.bool false)).truthy

/-- `should_rerun_entity` (graph.py lines 292-295). -/
def should_rerun_entity (st : StateDict) : Bool :=
  ! (st.accept_entity.getD (.bool false)).truthy

/-- `should_rerun_market` (graph.py lines 298-301). -/
def should_rerun_market (st : StateDict) : Bool :=
  ! (st.accept_market.getD (.bool false)).truthy

/-- `should_synthesize` (graph.py lines 304-311): all three acceptance
flags truthy.  Note: this function is defined in graph.py but is never
passed to any `add_conditional_edges` call. -/
def should_synthesize (st : StateDict) : Bool :=
  (st.accept_policy.getD (.bool false)).truthy
    && (st.accept_entity.getD (.bool false)).truthy
    && (st.accept_market.getD (.bool false)).truthy

/-- The conditional-edge lambda after `HITL_Policy` (graph.py lines
340-347): `"RAG_Policy" if should_rerun_policy(state) else "Synthesize"`. -/
def route_after_policy (st : StateDict) : String :=
  if should_rerun_policy st then "RAG_Policy" else "Synthesize"

/-- The conditional-edge lambda after `HITL_Entity` (graph.py lines
349-356). -/
def route_after_entity (st : StateDict) : String :=
  if should_rerun_entity st then "RAG_Entity" else "Synthesize"

/-- The conditional-edge lambda after `HITL_Market` (graph.py lines
358-365). -/
def route_after_market (st : StateDict) : String :=
  if should_rerun_market st then "RAG_Market" else "Synthesize"

/-- The conditional-edge lambda after `HITL_Final` (graph.py lines
371-378): `"Synthesize" if not state.get('accept_synthesis', False) else
"__end__"`. -/
def route_after_final (st : StateDict) : String :=
  if ! (st.accept_synthesis.getD (.bool false)).truthy then "Synthesize"
  else "__end__"

/-- The nine nodes added to the `StateGraph` (graph.py lines 316-324). -/
inductive Node where
  | ingest : Node
  | ragPolicy : Node
  | ragEntity : Node
  | ragMarket : Node
  | hitlPolicy : Node
  | hitlEntity : Node
  | hitlMarket : Node
  | synthesize : Node
  | hitlFinal : Node
deriving DecidableEq, Repr

/-- Execute one node on the current state: the partial update it returns
(or the exception it raises) together with the collaborator calls it made.
Dispatch mirrors `graph.add_node` (graph.py lines 316-324); `Ingest` and
`Synthesize` return the whole state dict, the others partial dicts. -/
def runNode (env : Env) (o : Oracle) (st : StateDict) :
    Node → Except PyErr (StateDict × List Event)
  | .ingest => .ok (ingest_renewal_alert st, [])
  | .ragPolicy => rag_policy env o st
  | .ragEntity => rag_entity env o st
  | .ragMarket => rag_market env o st
  | .hitlPolicy => .ok (hitl_policy_review o st, [])
  | .hitlEntity => .ok (hitl_entity_review o st, [])
  | .hitlMarket => .ok (hitl_market_review o st, [])
  | .synthesize => synthesize_recommendation o st
  | .hitlFinal => .ok (hitl_final_approval o st, [])

/-- The edges of the graph (graph.py lines 327-378), with each
conditional edge evaluated on the merged post-superstep state.  An empty
successor list is the `"__end__"` edge. -/
def successors (st : StateDict) : Node → List Node
  | .ingest => [.ragPolicy, .ragEntity, .ragMarket]
  | .ragPolicy => [.hitlPolicy]
  | .ragEntity => [.hitlEntity]
  | .ragMarket => [.hitlMarket]
  | .hitlPolicy => if route_after_policy st = "RAG_Policy" then [.ragPolicy] else [.synthesize]
  | .hitlEntity => if route_after_entity st = "RAG_Entity" then [.ragEntity] else [.synthesize]
  | .hitlMarket => if route_after_market st = "RAG_Market" then [.ragMarket] else [.synthesize]
  | .synthesize => [.hitlFinal]
  | .hitlFinal => if route_after_final st = "Synthesize" then [.synthesize] else []

/-- Run status of a workflow execution. -/
inductive Status where
  | running : Status
  | aborted : PyErr → Status
  | completed : Status
deriving DecidableEq, Repr

/-- A configuration of the workflow engine: the nodes scheduled for the
next superstep, the shared state, the run status, and the cumulative log
of collaborator calls. -/
structure Config where
  frontier : List Node
  state : StateDict
  status : Status
  events : List Event
deriving Repr

/-- Concatenate the successor lists of a superstep. -/
def joinAll {α : Type} : List (List α) → List α
  | [] => []
  | l :: ls => l ++ joinAll ls

/-- Deduplicate the scheduled nodes of a superstep (LangGraph runs a node
once per superstep even when several edges target it). -/
def dedupNodes : List Node → List Node
  | [] => []
  | n :: ns => if n ∈ ns then dedupNodes ns else n :: dedupNodes ns

/-- The first exception among a superstep's node results, if any. -/
def firstError : List (Except PyErr (StateDict × List Event)) → Option PyErr
  | [] => none
  | .error e :: _ => some e
  | .ok _ :: rs => firstError rs

/-- The collaborator calls recorded by one node result. -/
def okEvents : Except PyErr (StateDict × List Event) → List Event
  | .ok (_, evs) => evs
  | .error _ => []

/-- Merge all successful node updates of a superstep into the state. -/
def mergeUpdates (st : StateDict) :
    List (Except PyErr (StateDict × List Event)) → StateDict
  | [] => st
  | .ok (u, _) :: rs => mergeUpdates (applyUpdate st u) rs
  | .error _ :: rs => mergeUpdates st rs

/-- One Pregel superstep of the compiled graph: every scheduled node
executes (the parallel branches run concurrently and independently, spec
§5), any raised exception aborts the run, otherwise the updates are merged
and the (conditional) edges are evaluated on the merged state to schedule
the next superstep; an empty next frontier means the run reached
`"__end__"` and completed. -/
def step (env : Env) (o : Oracle) (c : Config) : Config :=
  match c.status, c.frontier with
  | .running, n :: ns =>
    let rs := (n :: ns).map (runNode env o c.state)
    let evs := joinAll (rs.map okEvents)
    match firstError rs with
    | some e =>
      { c with status := .aborted e, frontier := [], events := c.events ++ evs }
    | none =>
      let merged := mergeUpdates c.state rs
      let nf := dedupNodes (joinAll ((n :: ns).map (successors merged)))
      { frontier := nf
        state := merged
        status := if nf = [] then .completed else .running
        events := c.events ++ evs }
  | _, _ => c

/-- Run the engine for a sequence of supersteps, one oracle per step. -/
def runSteps (env : Env) (os : List Oracle) (c : Config) : Config :=
  os.foldl (fun c o => step env o c) c

/-- The initial channel values of an invocation of `run_credit_renewal`
(graph.py lines 381-414): the graph is built with
`input_schema=CreditRenewalInput`, whose only keys are `borrower_id` and
`sector`, so only those two input keys seed the state channels. -/
def initial_state (borrower_id sector : String) : StateDict :=
  { borrower_id := some borrower_id, sector := some sector }

/-- The starting configuration of a run: the entry point `Ingest`
(graph.py line 327) is scheduled on the initial state. -/
def initConfig (borrower_id sector : String) : Config :=
  { frontier := [.ingest]
    state := initial_state borrower_id sector
    status := .running
    events := [] }

/-- The checkpoint thread id built by `run_credit_renewal` (graph.py line
412): `f"credit_renewal_{borrower_id}"`; `sector` is not used. -/
def run_credit_renewal_thread_id (borrower_id : String) (_sector : String) : String :=
  "credit_renewal_" ++ borrower_id

/-- Environment with all three collection ids configured. -/
def envAll : Env :=
  { policy_collection_id := some "policy-col"
    entity_collection_id := some "entity-col"
    market_collection_id := some "market-col" }

/-- Environment with `POLICY_COLLECTION_ID` unset and the other two set. -/
def envPolicyMissing : Env :=
  { policy_collection_id := none
    entity_collection_id := some "entity-col"
    market_collection_id := some "market-col" }

/-- Oracle with default collaborator outcomes (all succeed, all gates
accept). -/
def oDefault : Oracle := {}

/-- Oracle whose gate decisions accept policy but reject entity and
market. -/
def oMixed : Oracle :=
  { policyDecision := .bool true
    entityDecision := .bool false
    marketDecision := .bool false }

/-- Oracle whose gate decisions reject all three domains and the final
memo. -/
def oRejectAll : Oracle :=
  { policyDecision := .bool false
    entityDecision := .bool false
    marketDecision := .bool false
    finalDecision := .bool false }

/-- Five supersteps of an accept-everything run: Ingest, the three
retrievals, the three gates, synthesis, the final gate. -/
def happyOracles : List Oracle :=
  [oDefault, oDefault, oDefault, oDefault, oDefault]

/-- Three supersteps ending in a mixed gate decision: Ingest, the three
retrievals, then gates deciding accept/reject/reject. -/
def mixedOracles : List Oracle :=
  [oDefault, oDefault, oMixed]

/-- Run invariant: a completed run has a truthy `accept_synthesis`, and a
running one always has a nonempty frontier. -/
def RunInv (c : Config) : Prop :=
  (c.status = .completed →
    (c.state.accept_synthesis.getD (.bool false)).truthy = true)
    ∧ (c.status = .running → c.frontier ≠ [])

lemma joinAll_eq_nil_forall {α : Type} :
    ∀ (L : List (List α)), joinAll L = [] → ∀ l ∈ L, l = [] := by
  intro L
  induction L with
  | nil => intro _ l hl; simp at hl
  | cons a as ih =>
    intro h l hl
    rw [joinAll] at h
    have h1 := List.append_eq_nil.mp h
    rcases List.mem_cons.mp hl with hl1 | hl1
    · exact hl1 ▸ h1.1
    · exact ih h1.2 l hl1

lemma dedupNodes_ne_nil {l : List Node} (h : l ≠ []) : dedupNodes l ≠ [] := by
  induction l with
  | nil => exact absurd rfl h
  | cons n ns ih =>
    rw [dedupNodes]
    split
    · next hmem => exact ih (List.ne_nil_of_mem hmem)
    · simp

lemma eq_nil_of_dedupNodes_eq_nil {l : List Node} (h : dedupNodes l = []) :
    l = [] := by
  by_contra hne
  exact dedupNodes_ne_nil hne h

lemma accept_synthesis_of_successors_eq_nil {st : StateDict} {n : Node}
    (h : successors st n = []) :
    (st.accept_synthesis.getD (.bool false)).truthy = true := by
  cases n
  case hitlFinal =>
    by_cases htr : (st.accept_synthesis.getD (PyVal.bool false)).truthy
    · exact htr
    · exfalso
      have hroute : route_after_final st = "Synthesize" := by
        simp [route_after_final, htr]
      rw [successors, hroute] at h
      simp at h
  case hitlPolicy => rw [successors] at h; split at h <;> simp at h
  case hitlEntity => rw [successors] at h; split at h <;> simp at h
  case hitlMarket => rw [successors] at h; split at h <;> simp at h
  all_goals simp [successors] at h

lemma step_inv (env : Env) (o : Oracle) {c : Config} (h : RunInv c) :
    RunInv (step env o c) := by
  obtain ⟨hc, hr⟩ := h
  rcases c with ⟨fr, st, stat, evs⟩
  cases stat with
  | aborted e => exact ⟨hc, hr⟩
  | completed => exact ⟨hc, hr⟩
  | running =>
    cases fr with
    | nil => exact absurd rfl (hr rfl)
    | cons n ns =>
      simp only [step]
      split
      · exact ⟨fun hcomp => by simp at hcomp, fun hrun => by simp at hrun⟩
      · constructor
        · intro hcomp
          simp only at hcomp
          by_cases hnf :
              dedupNodes (joinAll ((n :: ns).map
                (successors (mergeUpdates st ((n :: ns).map (runNode env o st)))))) = []
          · have hjoin := eq_nil_of_dedupNodes_eq_nil hnf
            have hall := joinAll_eq_nil_forall _ hjoin
            have hs : successors
                (mergeUpdates st ((n :: ns).map (runNode env o st))) n = [] :=
              hall _ (List.mem_map_of_mem _ (List.mem_cons_self n ns))
            exact accept_synthesis_of_successors_eq_nil hs
          · rw [if_neg hnf] at hcomp
            simp at hcomp
        · intro hrun
          simp only at hrun
          by_cases hnf :
              dedupNodes (joinAll ((n :: ns).map
                (successors (mergeUpdates st ((n :: ns).map (runNode env o st)))))) = []
          · rw [if_pos hnf] at hrun
            simp at hrun
          · simpa using hnf

lemma runSteps_inv (env : Env) (os : List Oracle) {c : Config} (h : RunInv c) :
    RunInv (runSteps env os c) := by
  induction os generalizing c with
  | nil => exact h
  | cons o os ih => exact ih (step_inv env o h)

lemma initConfig_inv (b s : String) : RunInv (initConfig b s) :=
  ⟨fun h => by simp [initConfig] at h, fun _ => by simp [initConfig]⟩

/-- C10: the checkpoint thread id of `run_credit_renewal` is the string
`credit_renewal_` followed by `borrower_id` alone, so two invocations with
equal `borrower_id` and any (possibly different) `sector` values produce
the same run key and address the same checkpoint thread. -/
theorem c10_run_key_from_borrower_only :
    (∀ b s1 s2 : String,
      run_credit_renewal_thread_id b s1 = run_credit_renewal_thread_id b s2)
      ∧ ∀ b s : String,
          run_credit_renewal_thread_id b s = "credit_renewal_" ++ b :=
  ⟨fun _ _ _ => rfl, fun _ _ => rfl⟩

/-- C8: the Ingest stage is total on any state carrying two strings as
`borrower_id` and `sector`: it returns normally with no collaborator call,
and the resulting state is the input state with exactly the three query
fields set by the fixed templates. -/
theorem c8_ingest_total_and_templates (env : Env) (o : Oracle)
    (st : StateDict) (b s : String)
    (hb : st.borrower_id = some b) (hs : st.sector = some s) :
    runNode env o st .ingest = .ok (ingest_renewal_alert st, [])
      ∧ ingest_renewal_alert st =
        { st with
          policy_query := some ("Credit policy and underwriting guidelines for " ++ b ++ " in " ++ s ++ " sector")
          entity_query := some ("Financial data, credit history, and risk profile for " ++ b)
          market_query := some ("Market conditions, sector analysis, and economic indicators for " ++ s ++ " sector") } :=
  ⟨rfl, by simp [ingest_renewal_alert, hb, hs]⟩

/-- C8 witness: Ingest on the initial state of a concrete run. -/
theorem c8_ingest_total_and_templates_witness :
    (initial_state "Acme Co" "Retail").borrower_id = some "Acme Co"
      ∧ ingest_renewal_alert (initial_state "Acme Co" "Retail") =
        { initial_state "Acme Co" "Retail" with
          policy_query := some ("Credit policy and underwriting guidelines for " ++ "Acme Co" ++ " in " ++ "Retail" ++ " sector")
          entity_query := some ("Financial data, credit history, and risk profile for " ++ "Acme Co")
          market_query := some ("Market conditions, sector analysis, and economic indicators for " ++ "Retail" ++ " sector") } :=
  ⟨rfl,
   (c8_ingest_total_and_templates envAll oDefault
     (initial_state "Acme Co" "Retail") "Acme Co" "Retail" rfl rfl).2⟩

/-- C9: when `borrower_id` or `sector` is absent from the state dict,
Ingest does not fail and substitutes the fixed defaults
`TechManufacture Inc` and `Advanced Manufacturing` into the query
templates. -/
theorem c9_ingest_defaults (st : StateDict) :
    (∀ s, st.borrower_id = none → st.sector = some s →
      ingest_renewal_alert st =
        { st with
          policy_query := some ("Credit policy and underwriting guidelines for TechManufacture Inc in " ++ s ++ " sector")
          entity_query := some "Financial data, credit history, and risk profile for TechManufacture Inc"
          market_query := some ("Market conditions, sector analysis, and economic indicators for " ++ s ++ " sector") })
      ∧ (∀ b, st.borrower_id = some b → st.sector = none →
        ingest_renewal_alert st =
          { st with
            policy_query := some ("Credit policy and underwriting guidelines for " ++ b ++ " in Advanced Manufacturing sector")
            entity_query := some ("Financial data, credit history, and risk profile for " ++ b)
            market_query := some "Market conditions, sector analysis, and economic indicators for Advanced Manufacturing sector" })
      ∧ (st.borrower_id = none → st.sector = none →
        ingest_renewal_alert st =
          { st with
            policy_query := some "Credit policy and underwriting guidelines for TechManufacture Inc in Advanced Manufacturing sector"
            entity_query := some "Financial data, credit history, and risk profile for TechManufacture Inc"
            market_query := some "Market conditions, sector analysis, and economic indicators for Advanced Manufacturing sector" })
      ∧ ∀ (env : Env) (o : Oracle),
          runNode env o st .ingest = .ok (ingest_renewal_alert st, []) := by
  refine ⟨?_, ?_, ?_, fun _ _ => rfl⟩
  · intro s h1 h2
    simp [ingest_renewal_alert, h1, h2, String.append_assoc]
  · intro b h1 h2
    simp [ingest_renewal_alert, h1, h2, String.append_assoc]
  · intro h1 h2
    simp [ingest_renewal_alert, h1, h2]

/-- C9 witness: Ingest on the empty state dict (both keys absent). -/
theorem c9_ingest_defaults_witness :
    ({} : StateDict).borrower_id = none
      ∧ ingest_renewal_alert {} =
        { ({} : StateDict) with
          policy_query := some "Credit policy and underwriting guidelines for TechManufacture Inc in Advanced Manufacturing sector"
          entity_query := some "Financial data, credit history, and risk profile for TechManufacture Inc"
          market_query := some "Market conditions, sector analysis, and economic indicators for Advanced Manufacturing sector" } :=
  ⟨rfl, (c9_ingest_defaults {}).2.2.1 rfl rfl⟩

/-- C4: each gate's conditional-edge function returns the retry target for
its own domain exactly when that domain's acceptance flag is falsy or
absent, returns the Synthesize target otherwise, and its value depends
only on that domain's own flag. -/
theorem c4_gate_routing_iff_and_independence :
    ∀ st : StateDict,
      ((route_after_policy st = "RAG_Policy" ↔
          (st.accept_policy.getD (PyVal.bool false)).truthy = false)
        ∧ (route_after_policy st = "Synthesize" ↔
          (st.accept_policy.getD (PyVal.bool false)).truthy = true)
        ∧ ∀ st2 : StateDict, st.accept_policy = st2.accept_policy →
            route_after_policy st = route_after_policy st2)
      ∧ ((route_after_entity st = "RAG_Entity" ↔
          (st.accept_entity.getD (PyVal.bool false)).truthy = false)
        ∧ (route_after_entity st = "Synthesize" ↔
          (st.accept_entity.getD (PyVal.bool false)).truthy = true)
        ∧ ∀ st2 : StateDict, st.accept_entity = st2.accept_entity →
            route_after_entity st = route_after_entity st2)
      ∧ ((route_after_market st = "RAG_Market" ↔
          (st.accept_market.getD (PyVal.bool false)).truthy = false)
        ∧ (route_after_market st = "Synthesize" ↔
          (st.accept_market.getD (PyVal.bool false)).truthy = true)
        ∧ ∀ st2 : StateDict, st.accept_market = st2.accept_market →
            route_after_market st = route_after_market st2) := by
  intro st
  refine ⟨⟨?_, ?_, ?_⟩, ⟨?_, ?_, ?_⟩, ⟨?_, ?_, ?_⟩⟩
  · by_cases h : (st.accept_policy.getD (PyVal.bool false)).truthy <;>
      simp [route_after_policy, should_rerun_policy, h]
  · by_cases h : (st.accept_policy.getD (PyVal.bool false)).truthy <;>
      simp [route_after_policy, should_rerun_policy, h]
  · intro st2 h
    simp [route_after_policy, should_rerun_policy, h]
  · by_cases h : (st.accept_entity.getD (PyVal.bool false)).truthy <;>
      simp [route_after_entity, should_rerun_entity, h]
  · by_cases h : (st.accept_entity.getD (PyVal.bool false)).truthy <;>
      simp [route_after_entity, should_rerun_entity, h]
  · intro st2 h
    simp [route_after_entity, should_rerun_entity, h]
  · by_cases h : (st.accept_market.getD (PyVal.bool false)).truthy <;>
      simp [route_after_market, should_rerun_market, h]
  · by_cases h : (st.accept_market.getD (PyVal.bool false)).truthy <;>
      simp [route_after_market, should_rerun_market, h]
  · intro st2 h
    simp [route_after_market, should_rerun_market, h]

/-- C4 witness: two states agreeing on `accept_policy` route alike after
the policy gate. -/
theorem c4_gate_routing_witness :
    (initial_state "Acme Co" "Retail").accept_policy =
        ({} : StateDict).accept_policy
      ∧ route_after_policy (initial_state "Acme Co" "Retail") =
        route_after_policy {} :=
  ⟨rfl,
   (c4_gate_routing_iff_and_independence
     (initial_state "Acme Co" "Retail")).1.2.2 {} rfl⟩

lemma rag_policy_writes_only_policy_fields (env : Env) (o : Oracle)
    (st : StateDict) {u : StateDict} {evs : List Event}
    (h : rag_policy env o st = .ok (u, evs)) :
    u.entity_pack = none ∧ u.accept_entity = none
      ∧ u.market_pack = none ∧ u.accept_market = none
      ∧ u.credit_memo = none := by
  unfold rag_policy at h
  split at h
  · simp at h
  · split at h
    · simp at h
    · split at h
      · simp only [Except.ok.injEq, Prod.mk.injEq] at h
        obtain ⟨hu, -⟩ := h
        subst hu
        exact ⟨rfl, rfl, rfl, rfl, rfl⟩
      · split at h <;>
        · simp only [Except.ok.injEq, Prod.mk.injEq] at h
          obtain ⟨hu, -⟩ := h
          subst hu
          exact ⟨rfl, rfl, rfl, rfl, rfl⟩

lemma rag_entity_writes_only_entity_fields (env : Env) (o : Oracle)
    (st : StateDict) {u : StateDict} {evs : List Event}
    (h : rag_entity env o st = .ok (u, evs)) :
    u.policy_pack = none ∧ u.accept_policy = none
      ∧ u.market_pack = none ∧ u.accept_market = none
      ∧ u.credit_memo = none := by
  unfold rag_entity at h
  split at h
  · simp at h
  · split at h
    · simp at h
    · split at h
      · simp only [Except.ok.injEq, Prod.mk.injEq] at h
        obtain ⟨hu, -⟩ := h
        subst hu
        exact ⟨rfl, rfl, rfl, rfl, rfl⟩
      · split at h <;>
        · simp only [Except.ok.injEq, Prod.mk.injEq] at h
          obtain ⟨hu, -⟩ := h
          subst hu
          exact ⟨rfl, rfl, rfl, rfl, rfl⟩

lemma rag_market_writes_only_market_fields (env : Env) (o : Oracle)
    (st : StateDict) {u : StateDict} {evs : List Event}
    (h : rag_market env o st = .ok (u, evs)) :
    u.policy_pack = none ∧ u.accept_policy = none
      ∧ u.entity_pack = none ∧ u.accept_entity = none
      ∧ u.credit_memo = none := by
  unfold rag_market at h
  split at h
  · simp at h
  · split at h
    · simp at h
    · split at h
      · simp only [Except.ok.injEq, Prod.mk.injEq] at h
        obtain ⟨hu, -⟩ := h
        subst hu
        exact ⟨rfl, rfl, rfl, rfl, rfl⟩
      · split at h <;>
        · simp only [Except.ok.injEq, Prod.mk.injEq] at h
          obtain ⟨hu, -⟩ := h
          subst hu
          exact ⟨rfl, rfl, rfl, rfl, rfl⟩

/-- C3: for each domain, when the collection id is configured and the
query is in the state, the retrieval stage returns normally on both
collaborator outcomes: on success it writes
`{domain}_pack = "<Domain> Analysis:\n" + text`, on failure it writes
`{domain}_pack = "<Domain> retrieval failed: <message>"`, in both cases it
writes `accept_{domain} = false`, and the returned dict contains no other
key. -/
theorem c3_retrieval_total_and_frame (env : Env) (o : Oracle)
    (st : StateDict) (cp ce cm qp qe qm : String)
    (hcp : env.policy_collection_id = some cp) (hcp0 : cp ≠ "")
    (hce : env.entity_collection_id = some ce) (hce0 : ce ≠ "")
    (hcm : env.market_collection_id = some cm) (hcm0 : cm ≠ "")
    (hqp : st.policy_query = some qp) (hqe : st.entity_query = some qe)
    (hqm : st.market_query = some qm) :
    ((∀ t, o.policyRetrieval = .ok t →
        rag_policy env o st =
          .ok ({ policy_pack := some ("Policy Analysis:\n" ++ t),
                 accept_policy := some (PyVal.bool false) },
               [.retrievalCall .policy qp cp]))
      ∧ ∀ e, o.policyRetrieval = .error e →
          rag_policy env o st =
            .ok ({ policy_pack := some ("Policy retrieval failed: " ++ e),
                   accept_policy := some (PyVal.bool false) },
                 [.retrievalCall .policy qp cp]))
    ∧ ((∀ t, o.entityRetrieval = .ok t →
        rag_entity env o st =
          .ok ({ entity_pack := some ("Entity Analysis:\n" ++ t),
                 accept_entity := some (PyVal.bool false) },
               [.retrievalCall .entity qe ce]))
      ∧ ∀ e, o.entityRetrieval = .error e →
          rag_entity env o st =
            .ok ({ entity_pack := some ("Entity retrieval failed: " ++ e),
                   accept_entity := some (PyVal.bool false) },
                 [.retrievalCall .entity qe ce]))
    ∧ ((∀ t, o.marketRetrieval = .ok t →
        rag_market env o st =
          .ok ({ market_pack := some ("Market Analysis:\n" ++ t),
                 accept_market := some (PyVal.bool false) },
               [.retrievalCall .market qm cm]))
      ∧ ∀ e, o.marketRetrieval = .error e →
          rag_market env o st =
            .ok ({ market_pack := some ("Market retrieval failed: " ++ e),
                   accept_market := some (PyVal.bool false) },
                 [.retrievalCall .market qm cm])) := by
  refine ⟨⟨?_, ?_⟩, ⟨?_, ?_⟩, ⟨?_, ?_⟩⟩
  · intro t hT; simp [rag_policy, hcp, hcp0, hqp, hT]
  · intro e hE; simp [rag_policy, hcp, hcp0, hqp, hE]
  · intro t hT; simp [rag_entity, hce, hce0, hqe, hT]
  · intro e hE; simp [rag_entity, hce, hce0, hqe, hE]
  · intro t hT; simp [rag_market, hcm, hcm0, hqm, hT]
  · intro e hE; simp [rag_market, hcm, hcm0, hqm, hE]

/-- C3 witness: the policy retrieval stage on a concrete configured
environment, present query, and successful collaborator outcome. -/
theorem c3_retrieval_total_and_frame_witness :
    envAll.policy_collection_id = some "policy-col"
      ∧ rag_policy envAll oDefault
          { policy_query := some "pq", entity_query := some "eq",
            market_query := some "mq" } =
        .ok ({ policy_pack := some ("Policy Analysis:\n" ++ "P"),
               accept_policy := some (PyVal.bool false) },
             [.retrievalCall .policy "pq" "policy-col"]) :=
  ⟨rfl,
   (c3_retrieval_total_and_frame envAll oDefault
     { policy_query := some "pq", entity_query := some "eq",
       market_query := some "mq" }
     "policy-col" "entity-col" "market-col" "pq" "eq" "mq"
     rfl (by decide) rfl (by decide) rfl (by decide)
     rfl rfl rfl).1.1 "P" rfl⟩

/-- C6: for each domain, a falsy gate decision leaves the merged state
with a falsy acceptance flag for that domain, makes the gate's conditional
edge route back to that domain's retrieval node, leaves the other two
domains' artifact and flag fields of the state unchanged by the gate
update, and the re-run retrieval node's returned dict never contains the
other two domains' artifact or flag keys. -/
theorem c6_reject_gate_frame (env : Env) (o : Oracle) (st : StateDict) :
    (o.policyDecision.truthy = false →
      ((applyUpdate st (hitl_policy_review o st)).accept_policy.getD (PyVal.bool false)).truthy = false
        ∧ successors (applyUpdate st (hitl_policy_review o st)) .hitlPolicy = [.ragPolicy]
        ∧ (applyUpdate st (hitl_policy_review o st)).entity_pack = st.entity_pack
        ∧ (applyUpdate st (hitl_policy_review o st)).accept_entity = st.accept_entity
        ∧ (applyUpdate st (hitl_policy_review o st)).market_pack = st.market_pack
        ∧ (applyUpdate st (hitl_policy_review o st)).accept_market = st.accept_market
        ∧ ∀ (st2 u : StateDict) (evs : List Event),
            rag_policy env o st2 = .ok (u, evs) →
            u.entity_pack = none ∧ u.accept_entity = none
              ∧ u.market_pack = none ∧ u.accept_market = none)
    ∧ (o.entityDecision.truthy = false →
      ((applyUpdate st (hitl_entity_review o st)).accept_entity.getD (PyVal.bool false)).truthy = false
        ∧ successors (applyUpdate st (hitl_entity_review o st)) .hitlEntity = [.ragEntity]
        ∧ (applyUpdate st (hitl_entity_review o st)).policy_pack = st.policy_pack
        ∧ (applyUpdate st (hitl_entity_review o st)).accept_policy = st.accept_policy
        ∧ (applyUpdate st (hitl_entity_review o st)).market_pack = st.market_pack
        ∧ (applyUpdate st (hitl_entity_review o st)).accept_market = st.accept_market
        ∧ ∀ (st2 u : StateDict) (evs : List Event),
            rag_entity env o st2 = .ok (u, evs) →
            u.policy_pack = none ∧ u.accept_policy = none
              ∧ u.market_pack = none ∧ u.accept_market = none)
    ∧ (o.marketDecision.truthy = false →
      ((applyUpdate st (hitl_market_review o st)).accept_market.getD (PyVal.bool false)).truthy = false
        ∧ successors (applyUpdate st (hitl_market_review o st)) .hitlMarket = [.ragMarket]
        ∧ (applyUpdate st (hitl_market_review o st)).policy_pack = st.policy_pack
        ∧ (applyUpdate st (hitl_market_review o st)).accept_policy = st.accept_policy
        ∧ (applyUpdate st (hitl_market_review o st)).entity_pack = st.entity_pack
        ∧ (applyUpdate st (hitl_market_review o st)).accept_entity = st.accept_entity
        ∧ ∀ (st2 u : StateDict) (evs : List Event),
            rag_market env o st2 = .ok (u, evs) →
            u.policy_pack = none ∧ u.accept_policy = none
              ∧ u.entity_pack = none ∧ u.accept_entity = none) := by
  refine ⟨fun h => ⟨?_, ?_, ?_, ?_, ?_, ?_, ?_⟩,
          fun h => ⟨?_, ?_, ?_, ?_, ?_, ?_, ?_⟩,
          fun h => ⟨?_, ?_, ?_, ?_, ?_, ?_, ?_⟩⟩
  · simp [applyUpdate, hitl_policy_review, h]
  · simp [successors, route_after_policy, should_rerun_policy, applyUpdate,
      hitl_policy_review, h]
  · simp [applyUpdate, hitl_policy_review]
  · simp [applyUpdate, hitl_policy_review]
  · simp [applyUpdate, hitl_policy_review]
  · simp [applyUpdate, hitl_policy_review]
  · intro st2 u evs hu
    have hf := rag_policy_writes_only_policy_fields env o st2 hu
    exact ⟨hf.1, hf.2.1, hf.2.2.1, hf.2.2.2.1⟩
  · simp [applyUpdate, hitl_entity_review, h]
  · simp [successors, route_after_entity, should_rerun_entity, applyUpdate,
      hitl_entity_review, h]
  · simp [applyUpdate, hitl_entity_review]
  · simp [applyUpdate, hitl_entity_review]
  · simp [applyUpdate, hitl_entity_review]
  · simp [applyUpdate, hitl_entity_review]
  · intro st2 u evs hu
    have hf := rag_entity_writes_only_entity_fields env o st2 hu
    exact ⟨hf.1, hf.2.1, hf.2.2.1, hf.2.2.2.1⟩
  · simp [applyUpdate, hitl_market_review, h]
  · simp [successors, route_after_market, should_rerun_market, applyUpdate,
      hitl_market_review, h]
  · simp [applyUpdate, hitl_market_review]
  · simp [applyUpdate, hitl_market_review]
  · simp [applyUpdate, hitl_market_review]
  · simp [applyUpdate, hitl_market_review]
  · intro st2 u evs hu
    have hf := rag_market_writes_only_market_fields env o st2 hu
    exact ⟨hf.1, hf.2.1, hf.2.2.1, hf.2.2.2.1⟩

/-- C6 witness: a rejected policy gate on a concrete state routes back to
the policy retrieval node. -/
theorem c6_reject_gate_frame_witness :
    oRejectAll.policyDecision.truthy = false
      ∧ successors
          (applyUpdate (initial_state "Acme Co" "Retail")
            (hitl_policy_review oRejectAll (initial_state "Acme Co" "Retail")))
          .hitlPolicy = [.ragPolicy] :=
  ⟨rfl,
   ((c6_reject_gate_frame envAll oRejectAll
     (initial_state "Acme Co" "Retail")).1 rfl).2.1⟩

/-- C7: a falsy decision at the Final gate makes its conditional edge
route back to Synthesize, and Synthesize (whatever the prior memo was)
overwrites `credit_memo` with the freshly generated text — or with
`"Synthesis failed: <message>"` on a generation failure, without raising —
while every other field of the returned state, in particular the three
packs, is exactly the input state's. -/
theorem c7_final_reject_reruns_synthesis (o : Oracle) (st : StateDict)
    (pp ep mp : String)
    (hpp : st.policy_pack = some pp) (hep : st.entity_pack = some ep)
    (hmp : st.market_pack = some mp) :
    (∀ stf : StateDict,
      (stf.accept_synthesis.getD (PyVal.bool false)).truthy = false →
      successors stf .hitlFinal = [.synthesize])
      ∧ (∀ t, o.generation = .ok t →
          synthesize_recommendation o st =
            .ok ({ st with credit_memo := some t },
                 [.generationCall (synthesis_prompt pp ep mp)]))
      ∧ ∀ e, o.generation = .error e →
          synthesize_recommendation o st =
            .ok ({ st with credit_memo := some ("Synthesis failed: " ++ e) },
                 [.generationCall (synthesis_prompt pp ep mp)]) := by
  refine ⟨?_, ?_, ?_⟩
  · intro stf hf
    simp [successors, route_after_final, hf]
  · intro t hT
    simp [synthesize_recommendation, hpp, hep, hmp, hT]
  · intro e hE
    simp [synthesize_recommendation, hpp, hep, hmp, hE]

/-- C7 witness: rejecting the final gate routes back to Synthesize, and a
concrete re-run of Synthesize overwrites only `credit_memo`. -/
theorem c7_final_reject_reruns_synthesis_witness :
    ({ policy_pack := some "pp", entity_pack := some "ep",
       market_pack := some "mp",
       credit_memo := some "old memo" } : StateDict).policy_pack = some "pp"
      ∧ synthesize_recommendation oDefault
          { policy_pack := some "pp", entity_pack := some "ep",
            market_pack := some "mp", credit_memo := some "old memo" } =
        .ok ({ ({ policy_pack := some "pp", entity_pack := some "ep",
                  market_pack := some "mp",
                  credit_memo := some "old memo" } : StateDict) with
               credit_memo := some "MEMO" },
             [.generationCall (synthesis_prompt "pp" "ep" "mp")]) :=
  ⟨rfl,
   (c7_final_reject_reruns_synthesis oDefault
     { policy_pack := some "pp", entity_pack := some "ep",
       market_pack := some "mp", credit_memo := some "old memo" }
     "pp" "ep" "mp" rfl rfl rfl).2.1 "MEMO" rfl⟩

/-- C5: the conditional-edge function after the Final gate returns the
retry-synthesis target exactly when `accept_synthesis` is falsy or absent
and the terminate target exactly when it is truthy; consequently, for any
environment and any sequence of collaborator outcomes and human
decisions, a run started by `run_credit_renewal` completes only in a
state whose `accept_synthesis` is truthy. -/
theorem c5_final_routing_and_termination :
    (∀ st : StateDict,
      (route_after_final st = "Synthesize" ↔
        (st.accept_synthesis.getD (PyVal.bool false)).truthy = false)
        ∧ (route_after_final st = "__end__" ↔
          (st.accept_synthesis.getD (PyVal.bool false)).truthy = true))
      ∧ ∀ (env : Env) (os : List Oracle) (b s : String),
          (runSteps env os (initConfig b s)).status = Status.completed →
          ((runSteps env os
            (initConfig b s)).state.accept_synthesis.getD
              (PyVal.bool false)).truthy = true := by
  constructor
  · intro st
    constructor
    · by_cases h : (st.accept_synthesis.getD (PyVal.bool false)).truthy <;>
        simp [route_after_final, h]
    · by_cases h : (st.accept_synthesis.getD (PyVal.bool false)).truthy <;>
        simp [route_after_final, h]
  · intro env os b s hcomp
    exact (runSteps_inv env os (initConfig_inv b s)).1 hcomp

/-- C5 witness: a concrete five-superstep accept-everything run completes
with a truthy `accept_synthesis`. -/
theorem c5_final_routing_and_termination_witness :
    (runSteps envAll happyOracles (initConfig "Acme Co" "Retail")).status =
        Status.completed
      ∧ ((runSteps envAll happyOracles
          (initConfig "Acme Co" "Retail")).state.accept_synthesis.getD
            (PyVal.bool false)).truthy = true :=
  ⟨by decide,
   c5_final_routing_and_termination.2 envAll happyOracles "Acme Co" "Retail"
     (by decide)⟩

/-- C1 (divergence witness): on the run where all retrievals succeed and
the gates decide accept/reject/reject, the engine schedules the Synthesize
node for execution in the next superstep even though `accept_entity` and
`accept_market` are false and the graph's own join predicate
`should_synthesize` evaluates to false — `should_synthesize` is defined in
graph.py but never wired into any conditional edge, so each gate routes to
Synthesize on its own flag alone. -/
theorem c1_synthesize_scheduled_without_all_accepts :
    (runSteps envAll mixedOracles (initConfig "Acme Co" "Retail")).status =
        Status.running
      ∧ Node.synthesize ∈
        (runSteps envAll mixedOracles (initConfig "Acme Co" "Retail")).frontier
      ∧ should_synthesize
          (runSteps envAll mixedOracles (initConfig "Acme Co" "Retail")).state
          = false
      ∧ (runSteps envAll mixedOracles
          (initConfig "Acme Co" "Retail")).state.accept_policy =
          some (PyVal.bool true)
      ∧ (runSteps envAll mixedOracles
          (initConfig "Acme Co" "Retail")).state.accept_entity =
          some (PyVal.bool false)
      ∧ (runSteps envAll mixedOracles
          (initConfig "Acme Co" "Retail")).state.accept_market =
          some (PyVal.bool false) := by
  refine ⟨by decide, by decide, by decide, by decide, by decide, by decide⟩

lemma exists_firstError_of_mem :
    ∀ {rs : List (Except PyErr (StateDict × List Event))} {e : PyErr},
      Except.error e ∈ rs → ∃ e2, firstError rs = some e2 := by
  intro rs
  induction rs with
  | nil => intro e h; simp at h
  | cons r rs ih =>
    intro e h
    cases r with
    | error e0 => exact ⟨e0, rfl⟩
    | ok v =>
      rcases List.mem_cons.mp h with h1 | h1
      · exact absurd h1 (by simp)
      · exact ih h1

/-- C2 (amended): when `POLICY_COLLECTION_ID` is unset (or empty), the
policy retrieval stage raises `ValueError` — returning no update and
attempting no policy retrieval call — and any superstep whose frontier
contains the policy retrieval node aborts the run (the exception is not
caught or retried by the graph).  The retrieval calls of the entity and
market branches scheduled in the same superstep are not prevented (see the
counterexample theorem). -/
theorem c2_policy_unset_aborts_run (env : Env)
    (h : env.policy_collection_id = none
      ∨ env.policy_collection_id = some "") :
    (∀ (o : Oracle) (st : StateDict),
      rag_policy env o st = .error (.valueError policyConfigMsg))
      ∧ ∀ (o : Oracle) (c : Config), c.status = .running →
          Node.ragPolicy ∈ c.frontier →
          ∃ e, (step env o c).status = Status.aborted e := by
  have hrag : ∀ (o : Oracle) (st : StateDict),
      rag_policy env o st = .error (.valueError policyConfigMsg) := by
    intro o st
    rcases h with h | h
    · unfold rag_policy; rw [h]
    · unfold rag_policy; rw [h]; simp
  refine ⟨hrag, ?_⟩
  intro o c hst hmem
  rcases c with ⟨fr, st, stat, evs⟩
  simp only at hst hmem
  subst hst
  cases fr with
  | nil => simp at hmem
  | cons n ns =>
    have hmemErr : Except.error (PyErr.valueError policyConfigMsg)
        ∈ (n :: ns).map (runNode env o st) := by
      have hr : runNode env o st .ragPolicy =
          Except.error (PyErr.valueError policyConfigMsg) := hrag o st
      exact hr ▸ List.mem_map_of_mem _ hmem
    obtain ⟨e2, hE⟩ := exists_firstError_of_mem hmemErr
    refine ⟨e2, ?_⟩
    simp only [step]
    rw [hE]

/-- C2 counterexample to the claim as stated: with `POLICY_COLLECTION_ID`
unset but the other two collection ids configured, the started run aborts
fatally with the configuration `ValueError`, yet the entity-domain
retrieval call (and the market one) is attempted in the same superstep in
which the policy stage raises, because the three retrieval branches run
concurrently; so it is not the case that no retrieval call occurs for any
of the three domains. -/
theorem c2_entity_call_attempted_despite_policy_unset :
    (runSteps envPolicyMissing [oDefault, oDefault]
        (initConfig "Acme Co" "Retail")).status =
      Status.aborted (PyErr.valueError policyConfigMsg)
      ∧ Event.retrievalCall Domain.entity
          "Financial data, credit history, and risk profile for Acme Co"
          "entity-col" ∈
        (runSteps envPolicyMissing [oDefault, oDefault]
          (initConfig "Acme Co" "Retail")).events
      ∧ Event.retrievalCall Domain.market
          "Market conditions, sector analysis, and economic indicators for Retail sector"
          "market-col" ∈
        (runSteps envPolicyMissing [oDefault, oDefault]
          (initConfig "Acme Co" "Retail")).events := by
  refine ⟨by decide, by decide, by decide⟩

/-- C2 witness for the amended theorem: the concrete environment with
`POLICY_COLLECTION_ID` unset makes the policy stage raise the
configuration error on a concrete state. -/
theorem c2_policy_unset_aborts_run_witness :
    (envPolicyMissing.policy_collection_id = none
      ∨ envPolicyMissing.policy_collection_id = some "")
      ∧ rag_policy envPolicyMissing oDefault
          (initial_state "Acme Co" "Retail") =
        .error (.valueError policyConfigMsg) :=
  ⟨Or.inl rfl,
   (c2_policy_unset_aborts_run envPolicyMissing (Or.inl rfl)).1 oDefault
     (initial_state "Acme Co" "Retail")⟩
